import Mathlib

/-!
Verification of the gpx-navigator application core.

The embedding covers the two source files with logic:

* `src/src/gpx.ts` — the GPX parser (`parseGpxXml`) and the map-fitting
  geometry (`boundingRegion`).  The parser receives the attribute tree
  produced by `fast-xml-parser` (options `ignoreAttributes: false`,
  `attributeNamePrefix: ''`; attribute values are left as strings since
  `parseAttributeValue` defaults to `false`), so the embedding models that
  decoded tree directly.  JavaScript numbers are modelled as `JsNum`
  (NaN / ±Infinity / a finite rational); the `Number(...)` string coercion
  applied to attribute values is modelled by `jsNumber`.
* `src/App.tsx` — the formatting helper `fmtSpeed` and the navigation
  controller (`requestLocationPermission`, `startNavigation`, `pickGpx`,
  and the GPS-tracking `useEffect`), modelled as explicit state passing
  over `AppState`.  React `useState` setters update the store while the
  running callback keeps the values captured at render time; the model
  makes that capture explicit where the source reads state after awaiting.
-/

namespace GpxNav

/-! ## JavaScript numbers and the `Number(string)` coercion -/

/-- A JavaScript number as far as the parser observes it: `NaN`,
`Infinity`, `-Infinity`, or a finite value (modelled as a rational). -/
inductive JsNum where
  | nan
  | posInf
  | negInf
  | fin (q : ℚ)
deriving DecidableEq, Repr

/-- The `Number.isFinite` test. -/
def JsNum.isFinite : JsNum → Bool
  | .fin _ => true
  | _ => false

/-- The rational value of a finite `JsNum` (0 on the non-finite cases,
which the code never extracts). -/
def JsNum.toQ : JsNum → ℚ
  | .fin q => q
  | _ => 0

/-- Numeric value of a digit list read in base 10; an empty list counts
as 0 (as in the integer part of `.5` or the fraction part of `12.`). -/
def digitsVal (l : List Char) : ℕ :=
  l.foldl (fun n c => 10 * n + (c.toNat - 48)) 0

/-- Split a character list at the first character satisfying `p`,
returning the prefix and, when a split character was found, the suffix
after it. -/
def splitAtFirst (p : Char → Bool) : List Char → List Char × Option (List Char)
  | [] => ([], none)
  | c :: cs =>
    if p c then ([], some cs)
    else
      let r := splitAtFirst p cs
      (c :: r.1, r.2)

/-- The unsigned mantissa of a JS decimal numeral: `Digits`, `Digits .`,
`Digits . Digits`, or `. Digits`; `none` when the text is not of that
shape. -/
def mantissaVal (l : List Char) : Option ℚ :=
  let s := splitAtFirst (fun c => c = '.') l
  match s.2 with
  | none =>
    if l ≠ [] ∧ l.all Char.isDigit then some (digitsVal l : ℚ) else none
  | some frac =>
    if (s.1 ≠ [] ∨ frac ≠ []) ∧ s.1.all Char.isDigit ∧ frac.all Char.isDigit then
      some ((digitsVal s.1 : ℚ) + (digitsVal frac : ℚ) / (10 : ℚ) ^ frac.length)
    else none

/-- The signed exponent of a JS decimal numeral (the part after `e`/`E`). -/
def exponentVal (l : List Char) : Option ℤ :=
  match l with
  | '+' :: r => if r ≠ [] ∧ r.all Char.isDigit then some (digitsVal r : ℤ) else none
  | '-' :: r => if r ≠ [] ∧ r.all Char.isDigit then some (-(digitsVal r : ℤ)) else none
  | r => if r ≠ [] ∧ r.all Char.isDigit then some (digitsVal r : ℤ) else none

/-- Value of an unsigned JS decimal numeral with optional exponent. -/
def decimalVal (l : List Char) : Option ℚ :=
  let s := splitAtFirst (fun c => c = 'e' ∨ c = 'E') l
  match s.2 with
  | none => mantissaVal s.1
  | some e =>
    match mantissaVal s.1, exponentVal e with
    | some m, some k => some (m * (10 : ℚ) ^ k)
    | _, _ => none

/-- Value of an unsigned numeral or `Infinity`, with the sign applied. -/
def numeralVal (neg : Bool) (l : List Char) : JsNum :=
  if l = "Infinity".data then
    if neg then .negInf else .posInf
  else
    match decimalVal l with
    | some q => .fin (if neg then -q else q)
    | none => .nan

/-- A whitespace character as JS `Number` trims it (ASCII whitespace and
the no-break space; the more exotic Unicode space code points are not
modelled). -/
def isJsWs (c : Char) : Bool :=
  c = ' ' ∨ c = '\t' ∨ c = '\n' ∨ c = '\r' ∨ c.toNat = 11 ∨ c.toNat = 12 ∨ c.toNat = 160

/-- Strip leading and trailing whitespace. -/
def jsTrim (l : List Char) : List Char :=
  ((l.dropWhile isJsWs).reverse.dropWhile isJsWs).reverse

/-- JavaScript `Number(s)` for a string `s`: trim whitespace, the empty
string is 0, otherwise parse an optionally signed decimal numeral or
`Infinity`; anything else is NaN.  (Hex/octal/binary literals such as
`0x10` are not modelled; no claim touches them and GPX coordinates are
decimal.) -/
def strToNumber (s : String) : JsNum :=
  let t := jsTrim s.data
  match t with
  | [] => .fin 0
  | '+' :: r => numeralVal false r
  | '-' :: r => numeralVal true r
  | l => numeralVal false l

/-- JavaScript `Number(p?.lat)` on a decoded attribute value: an absent
attribute is `undefined`, so `Number` yields NaN; a present attribute is
a string coerced by `strToNumber`. -/
def jsNumber : Option String → JsNum
  | none => .nan
  | some s => strToNumber s

/-! ## The decoded GPX attribute tree

`fast-xml-parser` yields a single object for a unique child element and
an array for repeated children; an absent child is `undefined`.
`OneOrMany` models this union.  Falsy decoded values (an empty element
decodes to `''`, which `asArray` maps to `[]` and whose `.name` access
yields `undefined`) behave exactly like the absent case and are folded
into `.none`. -/

/-- The shape `asArray` receives: `T | T[] | undefined`. -/
inductive OneOrMany (α : Type) where
  | none
  | one (a : α)
  | many (l : List α)
deriving DecidableEq, Repr

/-- Function `asArray` from `src/src/gpx.ts`: falsy values give `[]`, an array is
itself, a single value is a one-element array. -/
def asArray {α : Type} : OneOrMany α → List α
  | .none => []
  | .one a => [a]
  | .many l => l

/-- A decoded `<trkpt>`/`<rtept>`: its `lat`/`lon` attribute values as
the decoded strings (the attribute is absent when the option is
`none`). -/
structure Trkpt where
  lat : Option String
  lon : Option String
deriving DecidableEq, Repr

/-- A decoded `<trkseg>`. -/
structure Trkseg where
  trkpt : OneOrMany Trkpt
deriving DecidableEq, Repr

/-- A decoded `<trk>`: its optional `<name>` child text and its
segments. -/
structure Trk where
  name : Option String
  trkseg : OneOrMany Trkseg
deriving DecidableEq, Repr

/-- A decoded `<rte>`. -/
structure Rte where
  name : Option String
  rtept : OneOrMany Trkpt
deriving DecidableEq, Repr

/-- A decoded `<metadata>`. -/
structure Metadata where
  name : Option String
deriving DecidableEq, Repr

/-- The decoded `<gpx>` element. -/
structure GpxElem where
  metadata : Option Metadata
  trk : OneOrMany Trk
  rte : OneOrMany Rte
deriving DecidableEq, Repr

/-- A whole decoded document (`doc?.gpx` may be absent). -/
structure GpxDoc where
  gpx : Option GpxElem
deriving DecidableEq, Repr

/-! ## The parser (`parseGpxXml`) -/

/-- A parsed latitude/longitude pair (`LatLng` in the source). -/
structure LatLng where
  latitude : ℚ
  longitude : ℚ
deriving DecidableEq, Repr

/-- The parser result (`ParsedGpx` in the source). -/
structure ParsedGpx where
  name : Option String
  points : List LatLng
deriving DecidableEq, Repr

/-- Does a point have both coordinates coercing to finite numbers?  This
is the (negated) guard `!Number.isFinite(lat) || !Number.isFinite(lon)`
of the per-point lambda in `parseGpxXml`. -/
def coordsOk (p : Trkpt) : Bool :=
  (jsNumber p.lat).isFinite && (jsNumber p.lon).isFinite

/-- The `LatLng` a valid point maps to. -/
def mkLatLng (p : Trkpt) : LatLng :=
  ⟨(jsNumber p.lat).toQ, (jsNumber p.lon).toQ⟩

/-- The per-point lambda of `parseGpxXml`: `null` for a point with a
non-finite coordinate, otherwise the `LatLng`.  The source's
`.map(...).filter(Boolean)` over a point list is `List.filterMap
toLatLng`. -/
def toLatLng (p : Trkpt) : Option LatLng :=
  if coordsOk p then some (mkLatLng p) else none

/-- Lookup `gpx?.metadata?.name`: each `?.` step propagates `undefined`. -/
def metaName (d : GpxDoc) : Option String :=
  (d.gpx.bind (·.metadata)).bind (·.name)

/-- Lookup `gpx?.trk?.name`: when `trk` decoded to an array (several `<trk>`
elements) the `.name` property of the array is `undefined`. -/
def trkName (d : GpxDoc) : Option String :=
  match d.gpx with
  | none => none
  | some g =>
    match g.trk with
    | .one t => t.name
    | _ => none

/-- Lookup `gpx?.rte?.name`, as for `trkName`. -/
def rteName (d : GpxDoc) : Option String :=
  match d.gpx with
  | none => none
  | some g =>
    match g.rte with
    | .one r => r.name
    | _ => none

/-- Lookup `gpx?.trk` as a `OneOrMany`. -/
def gpxTrk (d : GpxDoc) : OneOrMany Trk :=
  match d.gpx with
  | none => .none
  | some g => g.trk

/-- Lookup `gpx?.rte` as a `OneOrMany`. -/
def gpxRte (d : GpxDoc) : OneOrMany Rte :=
  match d.gpx with
  | none => .none
  | some g => g.rte

/-- The track-point list the parser walks:
`asArray(asArray(asArray(gpx?.trk)[0]?.trkseg)[0]?.trkpt)`. -/
def trkptsOf (d : GpxDoc) : List Trkpt :=
  let trk := (asArray (gpxTrk d)).head?
  let seg := (asArray (match trk with | none => .none | some t => t.trkseg)).head?
  asArray (match seg with | none => .none | some s => s.trkpt)

/-- The route-point list the parser walks:
`asArray(asArray(gpx?.rte)[0]?.rtept)`. -/
def rteptsOf (d : GpxDoc) : List Trkpt :=
  let rte := (asArray (gpxRte d)).head?
  asArray (match rte with | none => .none | some r => r.rtept)

/-- The `pointsFromTrk` list in `parseGpxXml`. -/
def pointsFromTrk (d : GpxDoc) : List LatLng :=
  (trkptsOf d).filterMap toLatLng

/-- The `pointsFromRte` list in `parseGpxXml`. -/
def pointsFromRte (d : GpxDoc) : List LatLng :=
  (rteptsOf d).filterMap toLatLng

/-- Function `parseGpxXml` from `src/src/gpx.ts`, on the decoded attribute tree
(the XML-string decoding is the collaborator `fast-xml-parser`; a decode
failure is raised there, not here).  The name is
`gpx?.metadata?.name ?? gpx?.trk?.name ?? gpx?.rte?.name` — `??` skips
only `null`/`undefined`, so an empty string is taken. -/
def parseGpxXml (d : GpxDoc) : ParsedGpx :=
  let name := (metaName d).orElse fun _ => (trkName d).orElse fun _ => rteName d
  let fromTrk := pointsFromTrk d
  if fromTrk.length ≠ 0 then
    { name := name, points := fromTrk }
  else
    { name := name, points := pointsFromRte d }

/-! ## Geometry (`boundingRegion`) -/

/-- The region returned by `boundingRegion`. -/
structure Region where
  latitude : ℚ
  longitude : ℚ
  latitudeDelta : ℚ
  longitudeDelta : ℚ
deriving DecidableEq, Repr

/-- Function `boundingRegion` from `src/src/gpx.ts`: `null` on an empty list;
otherwise min/max of each axis by a linear scan seeded with the first
point, midpoint centre, and spans `max(0.01, range * 1.4)`. -/
def boundingRegion (points : List LatLng) : Option Region :=
  match points with
  | [] => none
  | p0 :: _ =>
    let minLat := points.foldl (fun m p => min m p.latitude) p0.latitude
    let maxLat := points.foldl (fun m p => max m p.latitude) p0.latitude
    let minLon := points.foldl (fun m p => min m p.longitude) p0.longitude
    let maxLon := points.foldl (fun m p => max m p.longitude) p0.longitude
    some { latitude := (minLat + maxLat) / 2
           longitude := (minLon + maxLon) / 2
           latitudeDelta := max 0.01 ((maxLat - minLat) * 1.4)
           longitudeDelta := max 0.01 ((maxLon - minLon) * 1.4) }

/-! ## Speed formatting (`kmh`, `fmtSpeed` in `src/App.tsx`) -/

/-- The `Math.round` rounding: round half toward positive infinity. -/
def jsRound (q : ℚ) : ℤ :=
  ⌊q + 1 / 2⌋

/-- Function `kmh` from `src/App.tsx`: metres per second to kilometres per hour. -/
def kmh (ms : ℚ) : ℚ :=
  ms * 3.6

/-- Function `fmtSpeed` from `src/App.tsx`.  `ms == null` covers both `null` and
`undefined` (the `none` case).  For a finite rational input the computed
`v = kmh ms` is always finite, so the source's
`!Number.isFinite(v) || v < 0` guard reduces to `v < 0`. -/
def fmtSpeed (ms : Option JsNum) : String :=
  match ms with
  | none => "—"
  | some n =>
    match n with
    | .fin q =>
      let v := kmh q
      if v < 0 then "0" else toString (jsRound v)
    | _ => "—"

/-! ## The navigation controller (`src/App.tsx`)

React state is modelled as an explicit `AppState` record; a `useState`
setter is a record update.  An event handler executes against the store
but reads the state *captured at the render that produced it* — when the
user fires the event from a quiescent UI, the captured value equals the
store value at invocation time, and it stays frozen while the handler
awaits (the store may move on).  The model threads the captured value
explicitly where the source reads state after an `await`
(`startNavigation` reading `gpsError`). -/

/-- The `NavMode` enum. -/
inductive NavMode where
  | browse
  | drive
deriving DecidableEq, Repr

/-- The foreground-permission state kept in `locPerm`. -/
inductive PermState where
  | unknown
  | granted
  | denied
deriving DecidableEq, Repr

/-- The component state of `NavigatorApp` (the `useState` cells the
claims concern, plus whether the `watchPositionAsync` subscription of
the GPS-tracking effect is open). -/
structure AppState where
  routeName : Option String
  route : List LatLng
  mode : NavMode
  locPerm : PermState
  speedMs : Option JsNum
  gpsError : Option String
  servicesEnabled : Option Bool
  loadingGpx : Bool
  gpxError : Option String
  subOpen : Bool
deriving DecidableEq, Repr

/-- The initial component state: all cells at their `useState`
defaults, no subscription. -/
def initialState : AppState :=
  { routeName := none
    route := []
    mode := .browse
    locPerm := .unknown
    speedMs := none
    gpsError := none
    servicesEnabled := none
    loadingGpx := false
    gpxError := none
    subOpen := false }

/-- The environment a start-navigation attempt queries: what
`Location.hasServicesEnabledAsync` and
`Location.requestForegroundPermissionsAsync` answer at the moment of the
attempt. -/
structure LocEnv where
  servicesEnabled : Bool
  grantForeground : Bool
deriving DecidableEq, Repr

/-- The service-disabled message set by `requestLocationPermission`. -/
def servicesOffMsg : String :=
  "Location services are OFF. Enable GPS/location services and try again."

/-- The generic message set by `startNavigation` on a failed attempt. -/
def permissionDeniedMsg : String :=
  "Location permission denied"

/-- The message `pickGpx` throws (and then surfaces) for a well-formed
document with zero usable points. -/
def noPointsMsg : String :=
  "No route points found in GPX"

/-- Function `requestLocationPermission` from `src/App.tsx`: record whether
services are enabled (setting the specific error when they are not),
request foreground permission and record it, and succeed iff granted and
enabled. -/
def requestLocationPermission (env : LocEnv) (s : AppState) : Bool × AppState :=
  let s := { s with servicesEnabled := some env.servicesEnabled }
  let s :=
    if env.servicesEnabled then s
    else { s with gpsError := some servicesOffMsg }
  let s := { s with locPerm := if env.grantForeground then .granted else .denied }
  (env.grantForeground && env.servicesEnabled, s)

/-- JavaScript truthiness test `!gpsError` on an optional string:
`null`/`undefined` and the empty string are falsy. -/
def strFalsy : Option String → Bool
  | none => true
  | some t => t.isEmpty

/-- Function `startNavigation` from `src/App.tsx`.  The `gpsError` read by
`if (!gpsError)` is the render-time value captured when the handler was
created — `setGpsError` calls made during the same attempt (including
the specific services-off message) do not change it. -/
def startNavigation (env : LocEnv) (s : AppState) : AppState :=
  let captured := s.gpsError
  let s := { s with gpsError := none }
  let r := requestLocationPermission env s
  if r.1 then
    { r.2 with mode := .drive }
  else
    if strFalsy captured then { r.2 with gpsError := some permissionDeniedMsg }
    else r.2

/-- The GPS-tracking `useEffect` body (dependency `[mode]`), composed
with the cleanup of the previous run: the old subscription is removed,
then, in drive mode, a fresh `watchPositionAsync` subscription is opened
once the permission check passes (the permission is re-requested when
`locPerm` is not already granted). -/
def gpsLoopEffect (env : LocEnv) (s : AppState) : AppState :=
  let s := { s with subOpen := false }
  if s.mode = .drive then
    if s.locPerm = .granted then { s with subOpen := true }
    else
      let r := requestLocationPermission env s
      if r.1 then { r.2 with subOpen := true } else r.2
  else s

/-- A complete user start-navigation attempt: run the handler, then —
because the effect's dependency list is `[mode]` — re-run the
GPS-tracking effect exactly when the mode changed. -/
def attemptStartNavigation (env : LocEnv) (s : AppState) : AppState :=
  let s1 := startNavigation env s
  if s1.mode = s.mode then s1 else gpsLoopEffect env s1

/-- Function `stopNavigation` plus the effect re-run its mode change triggers:
the cleanup closes the subscription. -/
def attemptStopNavigation (env : LocEnv) (s : AppState) : AppState :=
  let s1 := { s with mode := NavMode.browse }
  if s1.mode = s.mode then s1 else gpsLoopEffect env s1

/-- The outcome of the picker / file-read / XML-decode pipeline that
`pickGpx` awaits before the parser runs. -/
inductive LoadInput where
  | canceled
  | fileError (msg : String)
  | decodeError (msg : String)
  | decoded (d : GpxDoc)
deriving DecidableEq, Repr

/-- Function `pickGpx` from `src/App.tsx`: clear the load error and set the
loading flag; on a successful decode parse the document, treat an empty
point list as the thrown `noPointsMsg` error, otherwise replace the
route, its name and the mode; every thrown error (missing URI, read
failure, decode failure, no points) is caught and surfaced as
`gpxError`; the `finally` clears the loading flag. -/
def pickGpx (inp : LoadInput) (s : AppState) : AppState :=
  let s0 := { s with gpxError := none, loadingGpx := true }
  let s1 :=
    match inp with
    | .canceled => s0
    | .fileError m => { s0 with gpxError := some m }
    | .decodeError m => { s0 with gpxError := some m }
    | .decoded d =>
      let parsed := parseGpxXml d
      if parsed.points.length = 0 then
        { s0 with gpxError := some noPointsMsg }
      else
        { s0 with routeName := parsed.name, route := parsed.points, mode := .browse }
  { s1 with loadingGpx := false }

/-- The map region derived from the current route (the `region` memo of
`NavigatorApp`). -/
def regionOf (s : AppState) : Option Region :=
  boundingRegion s.route

/-- Replace the route data of a document, leaving everything else (in
particular all track data) unchanged; used to state that the parser
never consults route data when track data is present. -/
def setRte (d : GpxDoc) (r : OneOrMany Rte) : GpxDoc :=
  match d.gpx with
  | none => d
  | some g => ⟨some { g with rte := r }⟩

/-! # Theorems -/

/-! ## Facts about the min/max folds of `boundingRegion` -/

theorem foldl_min_le_init (f : LatLng → ℚ) :
    ∀ (l : List LatLng) (a : ℚ), l.foldl (fun m p => min m (f p)) a ≤ a
  | [], _ => le_refl _
  | x :: xs, a =>
    le_trans (foldl_min_le_init f xs (min a (f x))) (min_le_left a (f x))

theorem init_le_foldl_max (f : LatLng → ℚ) :
    ∀ (l : List LatLng) (a : ℚ), a ≤ l.foldl (fun m p => max m (f p)) a
  | [], _ => le_refl _
  | x :: xs, a =>
    le_trans (le_max_left a (f x)) (init_le_foldl_max f xs (max a (f x)))

theorem foldl_min_le_mem (f : LatLng → ℚ) :
    ∀ (l : List LatLng) (a : ℚ) (p : LatLng), p ∈ l →
      l.foldl (fun m q => min m (f q)) a ≤ f p := by
  intro l
  induction l with
  | nil => intro a p hp; cases hp
  | cons x xs ih =>
    intro a p hp
    rcases List.mem_cons.mp hp with h | h
    · subst h
      exact le_trans (foldl_min_le_init f xs (min a (f p))) (min_le_right a (f p))
    · exact ih (min a (f x)) p h

theorem mem_le_foldl_max (f : LatLng → ℚ) :
    ∀ (l : List LatLng) (a : ℚ) (p : LatLng), p ∈ l →
      f p ≤ l.foldl (fun m q => max m (f q)) a := by
  intro l
  induction l with
  | nil => intro a p hp; cases hp
  | cons x xs ih =>
    intro a p hp
    rcases List.mem_cons.mp hp with h | h
    · subst h
      exact le_trans (le_max_right a (f p)) (init_le_foldl_max f xs (max a (f p)))
    · exact ih (max a (f x)) p h

theorem foldl_min_choice (f : LatLng → ℚ) :
    ∀ (l : List LatLng) (a : ℚ),
      l.foldl (fun m p => min m (f p)) a = a ∨
        ∃ p ∈ l, l.foldl (fun m p => min m (f p)) a = f p := by
  intro l
  induction l with
  | nil => intro a; exact Or.inl rfl
  | cons x xs ih =>
    intro a
    rcases ih (min a (f x)) with h | ⟨p, hp, h⟩
    · rcases min_choice a (f x) with hm | hm
      · exact Or.inl (h.trans hm)
      · exact Or.inr ⟨x, List.mem_cons_self x xs, h.trans hm⟩
    · exact Or.inr ⟨p, List.mem_cons_of_mem x hp, h⟩

theorem foldl_max_choice (f : LatLng → ℚ) :
    ∀ (l : List LatLng) (a : ℚ),
      l.foldl (fun m p => max m (f p)) a = a ∨
        ∃ p ∈ l, l.foldl (fun m p => max m (f p)) a = f p := by
  intro l
  induction l with
  | nil => intro a; exact Or.inl rfl
  | cons x xs ih =>
    intro a
    rcases ih (max a (f x)) with h | ⟨p, hp, h⟩
    · rcases max_choice a (f x) with hm | hm
      · exact Or.inl (h.trans hm)
      · exact Or.inr ⟨x, List.mem_cons_self x xs, h.trans hm⟩
    · exact Or.inr ⟨p, List.mem_cons_of_mem x hp, h⟩

theorem foldl_min_mem_map (f : LatLng → ℚ) (p0 : LatLng) (rest : List LatLng) :
    (p0 :: rest).foldl (fun m p => min m (f p)) (f p0) ∈ (p0 :: rest).map f := by
  rcases foldl_min_choice f (p0 :: rest) (f p0) with h | ⟨p, hp, h⟩
  · rw [h]; exact List.mem_map_of_mem f (List.mem_cons_self p0 rest)
  · rw [h]; exact List.mem_map_of_mem f hp

theorem foldl_max_mem_map (f : LatLng → ℚ) (p0 : LatLng) (rest : List LatLng) :
    (p0 :: rest).foldl (fun m p => max m (f p)) (f p0) ∈ (p0 :: rest).map f := by
  rcases foldl_max_choice f (p0 :: rest) (f p0) with h | ⟨p, hp, h⟩
  · rw [h]; exact List.mem_map_of_mem f (List.mem_cons_self p0 rest)
  · rw [h]; exact List.mem_map_of_mem f hp

/-- C2: `boundingRegion` returns `none` for the empty point list; for
every non-empty point list it returns a region whose centre on each axis
is the midpoint `(min + max) / 2` of that axis's values (hence lies
within `[min, max]`), and whose span on each axis equals
`max(0.01, (max - min) * 1.4)`. -/
theorem C2_boundingRegion_spec :
    boundingRegion [] = none ∧
    ∀ ps : List LatLng, ps ≠ [] →
      ∃ r, boundingRegion ps = some r ∧
        ∃ loLat hiLat loLon hiLon : ℚ,
          loLat ∈ ps.map LatLng.latitude ∧ hiLat ∈ ps.map LatLng.latitude ∧
          loLon ∈ ps.map LatLng.longitude ∧ hiLon ∈ ps.map LatLng.longitude ∧
          (∀ x ∈ ps.map LatLng.latitude, loLat ≤ x ∧ x ≤ hiLat) ∧
          (∀ x ∈ ps.map LatLng.longitude, loLon ≤ x ∧ x ≤ hiLon) ∧
          r.latitude = (loLat + hiLat) / 2 ∧
          r.longitude = (loLon + hiLon) / 2 ∧
          loLat ≤ r.latitude ∧ r.latitude ≤ hiLat ∧
          loLon ≤ r.longitude ∧ r.longitude ≤ hiLon ∧
          r.latitudeDelta = max 0.01 ((hiLat - loLat) * 1.4) ∧
          r.longitudeDelta = max 0.01 ((hiLon - loLon) * 1.4) := by
  constructor
  · rfl
  · intro ps hps
    rcases ps with _ | ⟨p0, rest⟩
    · exact absurd rfl hps
    refine ⟨_, rfl, ?_⟩
    set l := p0 :: rest with hl
    set loLat := l.foldl (fun m p => min m p.latitude) p0.latitude with hlo
    set hiLat := l.foldl (fun m p => max m p.latitude) p0.latitude with hhi
    set loLon := l.foldl (fun m p => min m p.longitude) p0.longitude with hlo2
    set hiLon := l.foldl (fun m p => max m p.longitude) p0.longitude with hhi2
    have hlo_le_hi : loLat ≤ hiLat :=
      le_trans (foldl_min_le_init _ l p0.latitude) (init_le_foldl_max _ l p0.latitude)
    have hlo_le_hi2 : loLon ≤ hiLon :=
      le_trans (foldl_min_le_init _ l p0.longitude) (init_le_foldl_max _ l p0.longitude)
    refine ⟨loLat, hiLat, loLon, hiLon,
      foldl_min_mem_map LatLng.latitude p0 rest,
      foldl_max_mem_map LatLng.latitude p0 rest,
      foldl_min_mem_map LatLng.longitude p0 rest,
      foldl_max_mem_map LatLng.longitude p0 rest,
      ?_, ?_, rfl, rfl, by linarith, by linarith, by linarith, by linarith, rfl, rfl⟩
    · intro x hx
      obtain ⟨p, hp, rfl⟩ := List.mem_map.mp hx
      exact ⟨foldl_min_le_mem _ l p0.latitude p hp, mem_le_foldl_max _ l p0.latitude p hp⟩
    · intro x hx
      obtain ⟨p, hp, rfl⟩ := List.mem_map.mp hx
      exact ⟨foldl_min_le_mem _ l p0.longitude p hp, mem_le_foldl_max _ l p0.longitude p hp⟩

/-- Witness for C2: a concrete two-point list, its returned region and
the instantiated bounds. -/
theorem C2_boundingRegion_spec_witness :
    ([⟨1, 2⟩, ⟨3, 2⟩] : List LatLng) ≠ [] ∧
    ∃ r, boundingRegion [⟨1, 2⟩, ⟨3, 2⟩] = some r := by
  refine ⟨by decide, ?_⟩
  obtain ⟨r, hr, -⟩ := C2_boundingRegion_spec.2 [⟨1, 2⟩, ⟨3, 2⟩] (by decide)
  exact ⟨r, hr⟩

/-! ## Facts about `parseGpxXml` -/

theorem parseGpxXml_name (d : GpxDoc) :
    (parseGpxXml d).name =
      (metaName d).orElse fun _ => (trkName d).orElse fun _ => rteName d := by
  simp only [parseGpxXml]
  split <;> rfl

theorem parseGpxXml_points_pos (d : GpxDoc) (h : pointsFromTrk d ≠ []) :
    (parseGpxXml d).points = pointsFromTrk d := by
  have hlen : (pointsFromTrk d).length ≠ 0 :=
    Nat.pos_iff_ne_zero.mp (List.length_pos.mpr h)
  simp [parseGpxXml, hlen]

theorem parseGpxXml_points_zero (d : GpxDoc) (h : pointsFromTrk d = []) :
    (parseGpxXml d).points = pointsFromRte d := by
  simp [parseGpxXml, h]

theorem pointsFromTrk_setRte (d : GpxDoc) (r : OneOrMany Rte) :
    pointsFromTrk (setRte d r) = pointsFromTrk d := by
  rcases d with ⟨_ | g⟩ <;> rfl

/-- C1: whenever the track tier yields at least one valid point, the
parser's result is exactly the track-derived points, and replacing the
document's route data by anything does not change the result — route
data is never consulted; the route tier is used only when the track
tier yields zero valid points. -/
theorem C1_track_precedence (d : GpxDoc) (r : OneOrMany Rte) :
    (pointsFromTrk d ≠ [] →
      (parseGpxXml d).points = pointsFromTrk d ∧
      (parseGpxXml (setRte d r)).points = pointsFromTrk d) ∧
    (pointsFromTrk d = [] → (parseGpxXml d).points = pointsFromRte d) := by
  refine ⟨fun h => ⟨parseGpxXml_points_pos d h, ?_⟩, parseGpxXml_points_zero d⟩
  rw [parseGpxXml_points_pos (setRte d r) (by rw [pointsFromTrk_setRte]; exact h),
    pointsFromTrk_setRte]

/-- Witness for C1: a document holding one track point and a different,
non-empty route; the route data is also replaced by yet another route,
and the result stays the track point. -/
theorem C1_track_precedence_witness :
    pointsFromTrk ⟨some ⟨none,
        .one ⟨none, .one ⟨.one ⟨some "1", some "2"⟩⟩⟩,
        .one ⟨none, .one ⟨some "3", some "4"⟩⟩⟩⟩ ≠ [] ∧
    (parseGpxXml (setRte ⟨some ⟨none,
        .one ⟨none, .one ⟨.one ⟨some "1", some "2"⟩⟩⟩,
        .one ⟨none, .one ⟨some "3", some "4"⟩⟩⟩⟩
        (.one ⟨none, .one ⟨some "9", some "8"⟩⟩))).points =
      pointsFromTrk ⟨some ⟨none,
        .one ⟨none, .one ⟨.one ⟨some "1", some "2"⟩⟩⟩,
        .one ⟨none, .one ⟨some "3", some "4"⟩⟩⟩⟩ :=
  ⟨by decide,
    ((C1_track_precedence _ (.one ⟨none, .one ⟨some "9", some "8"⟩⟩)).1 (by decide)).2⟩

theorem filterMap_toLatLng_eq (ps : List Trkpt) :
    ps.filterMap toLatLng = (ps.filter coordsOk).map mkLatLng := by
  induction ps with
  | nil => rfl
  | cons p ps ih =>
    by_cases h : coordsOk p <;>
      simp [List.filterMap_cons, List.filter_cons, toLatLng, h, ih]

/-- C3: a point whose `lat` or `lon` does not coerce to a finite number
is discarded and exactly the remaining valid points are returned, in
their original order (the result is the order-preserving filter of the
walked point list); the same per-point rule applies to the route tier.
A bad point is never fatal: `parseGpxXml` is a total function. -/
theorem C3_per_point_discard (d : GpxDoc) :
    (pointsFromTrk d ≠ [] →
      (parseGpxXml d).points = ((trkptsOf d).filter coordsOk).map mkLatLng) ∧
    (pointsFromTrk d = [] →
      (parseGpxXml d).points = ((rteptsOf d).filter coordsOk).map mkLatLng) := by
  constructor
  · intro h
    rw [parseGpxXml_points_pos d h]
    exact filterMap_toLatLng_eq (trkptsOf d)
  · intro h
    rw [parseGpxXml_points_zero d h]
    exact filterMap_toLatLng_eq (rteptsOf d)

/-- Witness for C3: a track with a non-numeric `lat` in the middle; the
parse keeps exactly the two valid points, in order. -/
theorem C3_per_point_discard_witness :
    pointsFromTrk ⟨some ⟨none,
        .one ⟨none, .one ⟨.many [⟨some "1", some "2"⟩, ⟨some "oops", some "3"⟩,
          ⟨some "4", some "5"⟩]⟩⟩, .none⟩⟩ ≠ [] ∧
    (parseGpxXml ⟨some ⟨none,
        .one ⟨none, .one ⟨.many [⟨some "1", some "2"⟩, ⟨some "oops", some "3"⟩,
          ⟨some "4", some "5"⟩]⟩⟩, .none⟩⟩).points =
      ((trkptsOf ⟨some ⟨none,
        .one ⟨none, .one ⟨.many [⟨some "1", some "2"⟩, ⟨some "oops", some "3"⟩,
          ⟨some "4", some "5"⟩]⟩⟩, .none⟩⟩).filter coordsOk).map mkLatLng ∧
    ((trkptsOf ⟨some ⟨none,
        .one ⟨none, .one ⟨.many [⟨some "1", some "2"⟩, ⟨some "oops", some "3"⟩,
          ⟨some "4", some "5"⟩]⟩⟩, .none⟩⟩).filter coordsOk).map mkLatLng =
      [⟨1, 2⟩, ⟨4, 5⟩] :=
  ⟨by decide, (C3_per_point_discard _).1 (by decide), by decide⟩

/-- Counterexample to C4 as stated: in a document whose metadata name
decoded to the empty string and whose track name is the non-empty
"Morning Ride", the parser returns the empty metadata name — `??` skips
only `null`/`undefined`, so an empty-string metadata name does shadow a
non-empty track name. -/
theorem C4_name_priority_counterexample :
    (parseGpxXml ⟨some ⟨some ⟨some ""⟩,
        .one ⟨some "Morning Ride", .none⟩, .none⟩⟩).name = some "" ∧
    (parseGpxXml ⟨some ⟨some ⟨some ""⟩,
        .one ⟨some "Morning Ride", .none⟩, .none⟩⟩).name ≠ some "Morning Ride" := by
  constructor
  · rfl
  · decide

/-- C4 as amended: the name is chosen in priority order metadata name,
track name, route name, where the first *present* (non-`null`/
`undefined`) candidate wins — even when it is the empty string; absence
of all three yields no name, without error. -/
theorem C4_name_priority (d : GpxDoc) :
    (∀ st : String, metaName d = some st → (parseGpxXml d).name = some st) ∧
    (metaName d = none →
      ∀ st : String, trkName d = some st → (parseGpxXml d).name = some st) ∧
    (metaName d = none → trkName d = none →
      (parseGpxXml d).name = rteName d) := by
  refine ⟨?_, ?_, ?_⟩
  · intro st h
    rw [parseGpxXml_name, h]
    rfl
  · intro hm st h
    rw [parseGpxXml_name, hm, h]
    rfl
  · intro hm ht
    rw [parseGpxXml_name, hm, ht]
    rfl

/-- Witness for C4 (amended): metadata name present wins; with metadata
and track names absent the route name is returned. -/
theorem C4_name_priority_witness :
    metaName ⟨some ⟨some ⟨some "A"⟩, .none, .none⟩⟩ = some "A" ∧
    (parseGpxXml ⟨some ⟨some ⟨some "A"⟩, .none, .none⟩⟩).name = some "A" ∧
    metaName ⟨some ⟨none, .none, .one ⟨some "R", .none⟩⟩⟩ = none ∧
    trkName ⟨some ⟨none, .none, .one ⟨some "R", .none⟩⟩⟩ = none ∧
    (parseGpxXml ⟨some ⟨none, .none, .one ⟨some "R", .none⟩⟩⟩).name = some "R" :=
  ⟨rfl, (C4_name_priority _).1 "A" rfl, rfl, rfl,
    (C4_name_priority ⟨some ⟨none, .none, .one ⟨some "R", .none⟩⟩⟩).2.2 rfl rfl⟩

/-- C5: `parseGpxXml` is total over every decoded attribute tree — a
document with the `gpx` element absent parses to no name and no points,
a document with no track points and no route points parses to an empty
point list, and classifying that empty list as a `NoPointsFound` load
failure is done by the caller `pickGpx` (which surfaces `noPointsMsg`
and leaves the route unchanged), not by the parser. -/
theorem C5_parser_total (d : GpxDoc) :
    (d.gpx = none → parseGpxXml d = { name := none, points := [] }) ∧
    (trkptsOf d = [] → rteptsOf d = [] → (parseGpxXml d).points = []) ∧
    (∀ s : AppState, (parseGpxXml d).points = [] →
      (pickGpx (.decoded d) s).gpxError = some noPointsMsg ∧
      (pickGpx (.decoded d) s).route = s.route) := by
  refine ⟨?_, ?_, ?_⟩
  · intro h
    rcases d with ⟨g⟩
    cases h
    rfl
  · intro ht hr
    have h1 : pointsFromTrk d = [] := by unfold pointsFromTrk; rw [ht]; rfl
    rw [parseGpxXml_points_zero d h1]
    unfold pointsFromRte; rw [hr]; rfl
  · intro s h
    have hlen : (parseGpxXml d).points.length = 0 := by rw [h]; rfl
    constructor <;> simp [pickGpx, hlen]

/-- Witness for C5: the document with `gpx` absent, parsed and then fed
through `pickGpx` on the initial state. -/
theorem C5_parser_total_witness :
    (GpxDoc.mk none).gpx = none ∧
    parseGpxXml ⟨none⟩ = { name := none, points := [] } ∧
    (pickGpx (.decoded ⟨none⟩) initialState).gpxError = some noPointsMsg ∧
    (pickGpx (.decoded ⟨none⟩) initialState).route = initialState.route :=
  ⟨rfl, (C5_parser_total ⟨none⟩).1 rfl,
    ((C5_parser_total ⟨none⟩).2.2 initialState (by decide)).1,
    ((C5_parser_total ⟨none⟩).2.2 initialState (by decide)).2⟩

/-- C6: `fmtSpeed` renders a missing (`null`/`undefined`) or non-finite
input as the unknown marker "—"; a finite input whose computed km/h
value is negative as "0"; and a finite input whose computed km/h value
is non-negative as that value rounded to the nearest integer, as a
string.  (Over the rational model the km/h value of a finite input is
itself always finite, so a non-finite computed value is never rendered
as a number.) -/
theorem C6_fmtSpeed_spec :
    fmtSpeed none = "—" ∧
    (∀ n : JsNum, n.isFinite = false → fmtSpeed (some n) = "—") ∧
    (∀ q : ℚ, kmh q < 0 → fmtSpeed (some (.fin q)) = "0") ∧
    (∀ q : ℚ, 0 ≤ kmh q →
      fmtSpeed (some (.fin q)) = toString (jsRound (kmh q))) := by
  refine ⟨rfl, ?_, ?_, ?_⟩
  · intro n h
    cases n with
    | fin q => exact absurd h (by simp [JsNum.isFinite])
    | nan => rfl
    | posInf => rfl
    | negInf => rfl
  · intro q h
    simp [fmtSpeed, h]
  · intro q h
    simp [fmtSpeed, not_lt.mpr h]

/-- Witness for C6: 5 m/s renders as "18" (5 × 3.6 = 18) and −0.5 m/s
renders as "0". -/
theorem C6_fmtSpeed_spec_witness :
    (0 : ℚ) ≤ kmh 5 ∧ fmtSpeed (some (.fin 5)) = "18" ∧
    kmh (-1/2) < 0 ∧ fmtSpeed (some (.fin (-1/2))) = "0" := by
  have h5 : (0 : ℚ) ≤ kmh 5 := by norm_num [kmh]
  have hneg : kmh (-1/2) < 0 := by norm_num [kmh]
  have hr : jsRound (kmh 5) = 18 := by
    norm_num [jsRound, kmh]
  refine ⟨h5, ?_, hneg, C6_fmtSpeed_spec.2.2.1 (-1/2) hneg⟩
  rw [C6_fmtSpeed_spec.2.2.2 5 h5, hr]
  decide

/-! ## Facts about the navigation controller -/

theorem requestLocationPermission_fst (env : LocEnv) (s : AppState) :
    (requestLocationPermission env s).1 =
      (env.grantForeground && env.servicesEnabled) :=
  rfl

theorem requestLocationPermission_mode (env : LocEnv) (s : AppState) :
    (requestLocationPermission env s).2.mode = s.mode := by
  unfold requestLocationPermission
  split <;> rfl

theorem requestLocationPermission_subOpen (env : LocEnv) (s : AppState) :
    (requestLocationPermission env s).2.subOpen = s.subOpen := by
  unfold requestLocationPermission
  split <;> rfl

theorem startNavigation_fail (env : LocEnv) (s : AppState)
    (h : (env.grantForeground && env.servicesEnabled) = false) :
    (startNavigation env s).mode = s.mode ∧
    (startNavigation env s).subOpen = s.subOpen := by
  simp only [startNavigation]
  rw [requestLocationPermission_fst, h]
  simp only [Bool.false_eq_true, if_false]
  constructor <;> split <;>
    simp [requestLocationPermission_mode, requestLocationPermission_subOpen]

theorem attemptStartNavigation_fail (env : LocEnv) (s : AppState)
    (h : (env.grantForeground && env.servicesEnabled) = false) :
    attemptStartNavigation env s = startNavigation env s := by
  unfold attemptStartNavigation
  rw [if_pos (startNavigation_fail env s h).1]

/-- C7: a start-navigation attempt made while location services are
disabled never opens a live-position subscription and leaves the mode
where it was (Browse), regardless of the permission outcome; and any
attempt that ends in Drive, or that opened a subscription, passed both
the services-enabled and the permission-granted check at the moment of
the attempt. -/
theorem C7_services_guard (env : LocEnv) (s : AppState) :
    (env.servicesEnabled = false →
      (attemptStartNavigation env s).mode = s.mode ∧
      (attemptStartNavigation env s).subOpen = s.subOpen) ∧
    ((attemptStartNavigation env s).mode = .drive → s.mode ≠ .drive →
      env.servicesEnabled = true ∧ env.grantForeground = true) ∧
    ((attemptStartNavigation env s).subOpen = true → s.subOpen = false →
      env.servicesEnabled = true ∧ env.grantForeground = true) := by
  refine ⟨?_, ?_, ?_⟩
  · intro h
    rw [attemptStartNavigation_fail env s (by simp [h])]
    exact startNavigation_fail env s (by simp [h])
  · intro hdrive hnd
    by_cases hok : (env.grantForeground && env.servicesEnabled) = true
    · have hb := Bool.and_eq_true_iff.mp hok
      exact ⟨hb.2, hb.1⟩
    · have hf : (env.grantForeground && env.servicesEnabled) = false :=
        Bool.not_eq_true _ ▸ Bool.of_not_eq_true hok
      rw [attemptStartNavigation_fail env s hf] at hdrive
      rw [(startNavigation_fail env s hf).1] at hdrive
      exact absurd hdrive hnd
  · intro hsub hs
    by_cases hok : (env.grantForeground && env.servicesEnabled) = true
    · have hb := Bool.and_eq_true_iff.mp hok
      exact ⟨hb.2, hb.1⟩
    · have hf : (env.grantForeground && env.servicesEnabled) = false :=
        Bool.not_eq_true _ ▸ Bool.of_not_eq_true hok
      rw [attemptStartNavigation_fail env s hf] at hsub
      rw [(startNavigation_fail env s hf).2] at hsub
      rw [hs] at hsub
      cases hsub

/-- Witness for C7: services disabled but permission would be granted —
the attempt from the initial state changes neither mode nor
subscription. -/
theorem C7_services_guard_witness :
    (LocEnv.mk false true).servicesEnabled = false ∧
    (attemptStartNavigation ⟨false, true⟩ initialState).mode = initialState.mode ∧
    (attemptStartNavigation ⟨false, true⟩ initialState).subOpen = initialState.subOpen :=
  ⟨rfl, ((C7_services_guard ⟨false, true⟩ initialState).1 rfl).1,
    ((C7_services_guard ⟨false, true⟩ initialState).1 rfl).2⟩

/-- C8: every failed file-load attempt — a read/decode error or a
document parsing to zero usable points — leaves the previously loaded
route, its name, the mode and the derived map region unchanged,
surfacing only an error message; a successful load replaces the route
(and its name) in full and clears the load error. -/
theorem C8_load_failure_preserves (s : AppState) :
    (∀ m : String,
      (pickGpx (.fileError m) s).route = s.route ∧
      (pickGpx (.fileError m) s).routeName = s.routeName ∧
      (pickGpx (.fileError m) s).mode = s.mode ∧
      regionOf (pickGpx (.fileError m) s) = regionOf s ∧
      (pickGpx (.fileError m) s).gpxError = some m) ∧
    (∀ m : String,
      (pickGpx (.decodeError m) s).route = s.route ∧
      (pickGpx (.decodeError m) s).routeName = s.routeName ∧
      (pickGpx (.decodeError m) s).mode = s.mode ∧
      regionOf (pickGpx (.decodeError m) s) = regionOf s ∧
      (pickGpx (.decodeError m) s).gpxError = some m) ∧
    (∀ d : GpxDoc, (parseGpxXml d).points = [] →
      (pickGpx (.decoded d) s).route = s.route ∧
      (pickGpx (.decoded d) s).routeName = s.routeName ∧
      (pickGpx (.decoded d) s).mode = s.mode ∧
      regionOf (pickGpx (.decoded d) s) = regionOf s ∧
      (pickGpx (.decoded d) s).gpxError = some noPointsMsg) ∧
    (∀ d : GpxDoc, (parseGpxXml d).points ≠ [] →
      (pickGpx (.decoded d) s).route = (parseGpxXml d).points ∧
      (pickGpx (.decoded d) s).routeName = (parseGpxXml d).name ∧
      (pickGpx (.decoded d) s).gpxError = none) := by
  refine ⟨?_, ?_, ?_, ?_⟩
  · intro m
    refine ⟨rfl, rfl, rfl, rfl, rfl⟩
  · intro m
    refine ⟨rfl, rfl, rfl, rfl, rfl⟩
  · intro d h
    have hlen : (parseGpxXml d).points.length = 0 := by rw [h]; rfl
    refine ⟨?_, ?_, ?_, ?_, ?_⟩ <;> simp [pickGpx, regionOf, hlen]
  · intro d h
    have hlen : ¬ (parseGpxXml d).points.length = 0 :=
      Nat.pos_iff_ne_zero.mp (List.length_pos.mpr h)
    refine ⟨?_, ?_, ?_⟩ <;> simp [pickGpx, hlen]

/-- Witness for C8: a decode failure and an empty-points document, each
run against a state holding a previously loaded one-point route; the
route survives both. -/
theorem C8_load_failure_preserves_witness :
    (parseGpxXml ⟨none⟩).points = [] ∧
    (pickGpx (.decoded ⟨none⟩)
        { initialState with route := [⟨1, 2⟩], routeName := some "Old" }).route =
      ({ initialState with route := [⟨1, 2⟩], routeName := some "Old" } : AppState).route ∧
    (pickGpx (.decodeError "bad XML")
        { initialState with route := [⟨1, 2⟩], routeName := some "Old" }).route =
      ({ initialState with route := [⟨1, 2⟩], routeName := some "Old" } : AppState).route ∧
    (pickGpx (.decodeError "bad XML")
        { initialState with route := [⟨1, 2⟩], routeName := some "Old" }).gpxError =
      some "bad XML" :=
  ⟨by decide,
    ((C8_load_failure_preserves _).2.2.1 ⟨none⟩ (by decide)).1,
    ((C8_load_failure_preserves _).2.1 "bad XML").1,
    ((C8_load_failure_preserves
      { initialState with route := [⟨1, 2⟩], routeName := some "Old" }).2.1 "bad XML").2.2.2.2⟩

/-- C9 (the code as it stands, at the failing input): starting
navigation from the initial state (no error on screen) with location
services disabled ends with the *generic* "Location permission denied"
message — the specific services-disabled message set during the same
attempt has been overwritten, because `if (!gpsError)` reads the
render-time `gpsError` (still `null`), not the value just set.  This
contradicts the claim (and the source's own comment) that the specific
service error, when set, is the one surfaced. -/
theorem C9_generic_error_clobbers_specific :
    (attemptStartNavigation ⟨false, true⟩ initialState).gpsError =
      some permissionDeniedMsg ∧
    (attemptStartNavigation ⟨false, false⟩ initialState).gpsError =
      some permissionDeniedMsg ∧
    permissionDeniedMsg ≠ servicesOffMsg := by
  refine ⟨rfl, rfl, by decide⟩

/-- C10: a `lat`/`lon` attribute that decoded to the empty string is
coerced by `Number('')` to 0 — a finite value — so the point is kept
with that coordinate equal to 0 rather than discarded; a point is
discarded exactly when a coordinate coerces to NaN or an infinity. -/
theorem C10_empty_attr_is_zero (p : Trkpt) :
    jsNumber (some "") = .fin 0 ∧
    (p.lat = some "" → (jsNumber p.lon).isFinite = true →
      toLatLng p = some ⟨0, (jsNumber p.lon).toQ⟩) ∧
    (toLatLng p = none ↔ coordsOk p = false) := by
  refine ⟨by decide, ?_, ?_⟩
  · intro hlat hlon
    have hok : coordsOk p = true := by
      unfold coordsOk
      rw [hlat, Bool.and_eq_true]
      exact ⟨by decide, hlon⟩
    unfold toLatLng mkLatLng
    rw [hok, hlat]
    simp only [if_true]
    rfl
  · unfold toLatLng
    cases h : coordsOk p <;> simp [h]

/-- Witness for C10: a point with an empty `lat` attribute and `lon`
"5" is kept as latitude 0, longitude 5. -/
theorem C10_empty_attr_is_zero_witness :
    (Trkpt.mk (some "") (some "5")).lat = some "" ∧
    (jsNumber (Trkpt.mk (some "") (some "5")).lon).isFinite = true ∧
    toLatLng ⟨some "", some "5"⟩ =
      some ⟨0, (jsNumber (Trkpt.mk (some "") (some "5")).lon).toQ⟩ ∧
    (jsNumber (Trkpt.mk (some "") (some "5")).lon).toQ = 5 :=
  ⟨rfl, by decide,
    (C10_empty_attr_is_zero ⟨some "", some "5"⟩).2.1 rfl (by decide),
    by decide⟩

end GpxNav
